import Mathlib

/-!
Shallow embedding of the maubot-autoreply plugin (files `autoreply/__init__.py`
and `autoreply/_store.py`).

The database (three tables created by `schema_v1`) is a record of three lists
kept in insertion order; primary-key constraints of the SQL schema become
explicit checks in the insert operations.  Each store operation is keyed by the
owning `user_id`, mirroring the `AutoReplyBotStore` instance field.  Handlers
are pure functions from a database state and an inbound event to a result
carrying the new database state, the list of replies sent, and whether an
exception escaped the handler.
-/

namespace Autoreply

/-- A row of the `autoreply_messages` table: `room_id TEXT PRIMARY KEY`,
`event_id TEXT NOT NULL`, `user_id TEXT NOT NULL`. -/
structure Message where
  room_id : String
  event_id : String
  user_id : String
  deriving Repr, DecidableEq

/-- The database state: the three tables created by `schema_v1` in
`_store.py`, each kept in insertion order.
`management_rooms` holds `(user_id, room_id)` pairs (`user_id` primary key),
`user_away` holds `(user_id, is_away)` pairs (`user_id` primary key). -/
@[ext]
structure DB where
  management_rooms : List (String × String)
  messages : List Message
  user_away : List (String × Bool)
  deriving Repr, DecidableEq

/-- `AutoReplyBotStore.get_management_room`:
`SELECT room_id FROM autoreply_management_rooms WHERE user_id = $1`. -/
def get_management_room (db : DB) (user_id : String) : Option String :=
  (db.management_rooms.find? (fun r => r.1 == user_id)).map (fun r => r.2)

/-- `AutoReplyBotStore.store_management_room`:
`INSERT INTO autoreply_management_rooms(user_id, room_id) VALUES($1, $2)`.
The insert violates the `user_id` primary key when a binding already exists. -/
def store_management_room (db : DB) (user_id room_id : String) :
    Except Unit DB :=
  if db.management_rooms.any (fun r => r.1 == user_id) then
    Except.error ()
  else
    Except.ok
      { db with management_rooms := db.management_rooms ++ [(user_id, room_id)] }

/-- `AutoReplyBotStore.get_message_id_in_room`:
`SELECT event_id FROM autoreply_messages WHERE room_id = $1 AND user_id = $2`. -/
def get_message_id_in_room (db : DB) (user_id room_id : String) :
    Option String :=
  (db.messages.find? (fun m => m.room_id == room_id && m.user_id == user_id)).map
    (fun m => m.event_id)

/-- `AutoReplyBotStore.store_message`:
`INSERT INTO autoreply_messages(event_id, room_id, user_id) VALUES($1, $2, $3)`.
The table's primary key is `room_id` alone, so the insert fails whenever any
row for that room already exists, regardless of its `user_id`. -/
def store_message (db : DB) (user_id event_id room_id : String) :
    Except Unit DB :=
  if db.messages.any (fun m => m.room_id == room_id) then
    Except.error ()
  else
    Except.ok { db with messages := db.messages ++ [⟨room_id, event_id, user_id⟩] }

/-- `AutoReplyBotStore.clear_messages`:
`DELETE FROM autoreply_messages WHERE user_id = $1`. -/
def clear_messages (db : DB) (user_id : String) : DB :=
  { db with messages := db.messages.filter (fun m => !(m.user_id == user_id)) }

/-- `AutoReplyBotStore.get_missed_messages`:
`SELECT room_id, event_id FROM autoreply_messages WHERE user_id = $1`,
returned in the table's insertion order. -/
def get_missed_messages (db : DB) (user_id : String) : List (String × String) :=
  (db.messages.filter (fun m => m.user_id == user_id)).map
    (fun m => (m.room_id, m.event_id))

/-- `AutoReplyBotStore.update_away_state`: an upsert,
`INSERT ... ON CONFLICT(user_id) DO UPDATE SET is_away = EXCLUDED.is_away`. -/
def update_away_state (db : DB) (user_id : String) (away : Bool) : DB :=
  if db.user_away.any (fun r => r.1 == user_id) then
    { db with
        user_away := db.user_away.map
          (fun r => if r.1 == user_id then (r.1, away) else r) }
  else
    { db with user_away := db.user_away ++ [(user_id, away)] }

/-- `AutoReplyBotStore.is_away`:
`SELECT is_away FROM autoreply_user_away WHERE user_id = $1`, with a `None`
result (no row) treated as `False`. -/
def is_away (db : DB) (user_id : String) : Bool :=
  match (db.user_away.find? (fun r => r.1 == user_id)).map (fun r => r.2) with
  | none => false
  | some b => b

/-- An inbound `m.room.message` event, restricted to the fields the plugin
reads: `evt.sender`, `evt.room_id`, `evt.event_id`, `evt.content.body`. -/
structure MessageEvent where
  sender : String
  room_id : String
  event_id : String
  body : String
  deriving Repr, DecidableEq

/-- One outgoing `evt.reply(...)` call: the room it goes to, the event it
replies to, its body, and whether it is rendered as markdown. -/
structure Reply where
  room_id : String
  in_reply_to : String
  body : String
  markdown : Bool
  deriving Repr, DecidableEq

/-- The observable outcome of one handler invocation: the database state it
leaves behind, the replies it sent (in order), and whether an exception
escaped to the caller. -/
structure HandlerResult where
  db : DB
  replies : List Reply
  errored : Bool
  deriving Repr, DecidableEq

/-- The `m.direct` account-data payload: a mapping from category key to a list
of room IDs (`Dict[str, List[str]]` in the source). -/
abbrev AccountData := List (String × List String)

/-- Embedding of Python's `str.startswith`, used by the command dispatch in
`_handle_management_command`: the pattern's characters start the string. -/
def strStartsWith (s p : String) : Bool :=
  p.toList.isPrefixOf s.toList

/-- The loop body of `AutoReplyBot._is_direct`: scan every list in the
account-data mapping and report whether the room appears in any of them. -/
def is_direct_in (data : AccountData) (room_id : String) : Bool :=
  data.any (fun kv => kv.2.any (fun room => room == room_id))

/-- `AutoReplyBot._is_direct`.  The `get_account_data("m.direct")` call is an
external collaborator and may raise; the source does not catch that, so a
failed fetch propagates out of `_is_direct`. -/
def is_direct (fetch : Except Unit AccountData) (room_id : String) :
    Except Unit Bool :=
  match fetch with
  | Except.error e => Except.error e
  | Except.ok data => Except.ok (is_direct_in data room_id)

/-- `AutoReplyBot._auto_reply`.  The four criteria are evaluated in the
source's short-circuit order (self-sender, away flag, existing marker, direct
room); only when the first three hold is the account data fetched.  When all
four hold the configured `message` is sent as a reply first, and the marker is
stored second. -/
def auto_reply (mxid message : String) (fetch : Except Unit AccountData)
    (db : DB) (evt : MessageEvent) : HandlerResult :=
  if evt.sender == mxid then ⟨db, [], false⟩
  else if !(is_away db mxid) then ⟨db, [], false⟩
  else if (get_message_id_in_room db mxid evt.room_id).isSome then ⟨db, [], false⟩
  else
    match is_direct fetch evt.room_id with
    | Except.error _ => ⟨db, [], true⟩
    | Except.ok false => ⟨db, [], false⟩
    | Except.ok true =>
      let sent := [Reply.mk evt.room_id evt.event_id message false]
      match store_message db mxid evt.event_id evt.room_id with
      | Except.error _ => ⟨db, sent, true⟩
      | Except.ok db1 => ⟨db1, sent, false⟩

/-- `AutoReplyBot._generate_room_entry`: a matrix.to link for the room
followed by a matrix.to link to the first missed message in it. -/
def generate_room_entry (room_id event_id : String) : String :=
  "[" ++ room_id ++ "](https://matrix.to/#/" ++ room_id ++ ")" ++
    " ([view message](https://matrix.to/#/" ++ room_id ++ "/" ++ event_id ++ "))"

/-- `AutoReplyBot._generate_missed_messages_summary`: the fixed sentence when
no message was missed, otherwise a header followed by one bullet per marker in
the store's returned order. -/
def generate_missed_messages_summary (db : DB) (mxid : String) : String :=
  let messages := get_missed_messages db mxid
  if messages.length == 0 then
    "You haven't missed any message while you were away."
  else
    messages.foldl
      (fun summary p => summary ++ "\n* " ++ generate_room_entry p.1 p.2)
      "While you were away, you have missed messages in the following DM(s):\n"

/-- `AutoReplyBot._handle_management_command`: three independent (not
`elif`-chained) checks of the message body against the command strings, each
firing its own state change and confirmation reply. -/
def handle_management_command (db : DB) (mxid : String) (evt : MessageEvent) :
    HandlerResult :=
  let s1 :=
    if strStartsWith evt.body "!clear" then
      (clear_messages db mxid,
        [Reply.mk evt.room_id evt.event_id "Cleared messages" false])
    else (db, [])
  let s2 :=
    if strStartsWith evt.body "!away" then
      (update_away_state s1.1 mxid true,
        [Reply.mk evt.room_id evt.event_id
          "Your status has been updated. Have a nice break!" false])
    else (s1.1, [])
  let s3 :=
    if strStartsWith evt.body "!back" then
      let dbBack := update_away_state s2.1 mxid false
      let content := "Your status has been updated. Welcome back!\n\n" ++
        generate_missed_messages_summary dbBack mxid
      (clear_messages dbBack mxid,
        [Reply.mk evt.room_id evt.event_id content true])
    else (s2.1, [])
  ⟨s3.1, s1.2 ++ s2.2 ++ s3.2, false⟩

/-- `AutoReplyBot.handle_message`: dispatch on whether the event was sent to
the management room. -/
def handle_message (mxid management_room message : String)
    (fetch : Except Unit AccountData) (db : DB) (evt : MessageEvent) :
    HandlerResult :=
  if evt.room_id == management_room then
    handle_management_command db mxid evt
  else
    auto_reply mxid message fetch db evt

/-- Processing a sequence of inbound non-management messages through
`_auto_reply`, threading the database state and collecting all replies sent
(the account-data mapping is held fixed across the sequence). -/
def auto_reply_run (mxid message : String) (data : AccountData) :
    DB → List MessageEvent → DB × List Reply
  | db, [] => (db, [])
  | db, e :: es =>
    let r := auto_reply mxid message (Except.ok data) db e
    let rest := auto_reply_run mxid message data r.db es
    (rest.1, r.replies ++ rest.2)

/-! ### Helper lemmas about the embedded operations -/

lemma toList_bang_clear : "!clear".toList = '!' :: 'c' :: ['l', 'e', 'a', 'r'] := rfl

lemma toList_bang_away : "!away".toList = '!' :: 'a' :: ['w', 'a', 'y'] := rfl

lemma toList_bang_back : "!back".toList = '!' :: 'b' :: ['a', 'c', 'k'] := rfl

lemma isPrefixOf_head_eq {a b : Char} {p q t : List Char}
    (h1 : (a :: p).isPrefixOf t = true) (h2 : (b :: q).isPrefixOf t = true) :
    a = b := by
  cases t with
  | nil => simp at h1
  | cons x xs =>
    simp only [List.isPrefixOf_cons₂, Bool.and_eq_true, beq_iff_eq] at h1 h2
    exact h1.1.trans h2.1.symm

lemma isPrefixOf_tail {a : Char} {p t : List Char}
    (h : (a :: p).isPrefixOf t = true) : p.isPrefixOf t.tail = true := by
  cases t with
  | nil => simp at h
  | cons x xs =>
    simp only [List.isPrefixOf_cons₂, Bool.and_eq_true] at h
    exact h.2

/-- Two command words agreeing on the first character but differing on the
second can never both start the same message body. -/
lemma strStartsWith_second_ne {s p q : String} {c0 c1 d1 : Char}
    {tp tq : List Char} (hp : p.toList = c0 :: c1 :: tp)
    (hq : q.toList = c0 :: d1 :: tq) (hne : c1 ≠ d1)
    (h1 : strStartsWith s p = true) : strStartsWith s q = false := by
  cases h2 : strStartsWith s q with
  | false => rfl
  | true =>
    exfalso
    simp only [strStartsWith, hp] at h1
    simp only [strStartsWith, hq] at h2
    exact hne (isPrefixOf_head_eq (isPrefixOf_tail h1) (isPrefixOf_tail h2))

lemma clear_away_disjoint {s : String} (h : strStartsWith s "!clear" = true) :
    strStartsWith s "!away" = false :=
  strStartsWith_second_ne toList_bang_clear toList_bang_away (by decide) h

lemma clear_back_disjoint {s : String} (h : strStartsWith s "!clear" = true) :
    strStartsWith s "!back" = false :=
  strStartsWith_second_ne toList_bang_clear toList_bang_back (by decide) h

lemma away_clear_disjoint {s : String} (h : strStartsWith s "!away" = true) :
    strStartsWith s "!clear" = false :=
  strStartsWith_second_ne toList_bang_away toList_bang_clear (by decide) h

lemma away_back_disjoint {s : String} (h : strStartsWith s "!away" = true) :
    strStartsWith s "!back" = false :=
  strStartsWith_second_ne toList_bang_away toList_bang_back (by decide) h

lemma back_clear_disjoint {s : String} (h : strStartsWith s "!back" = true) :
    strStartsWith s "!clear" = false :=
  strStartsWith_second_ne toList_bang_back toList_bang_clear (by decide) h

lemma back_away_disjoint {s : String} (h : strStartsWith s "!back" = true) :
    strStartsWith s "!away" = false :=
  strStartsWith_second_ne toList_bang_back toList_bang_away (by decide) h

lemma update_away_state_messages (db : DB) (u : String) (a : Bool) :
    (update_away_state db u a).messages = db.messages := by
  unfold update_away_state
  split <;> rfl

lemma update_away_state_management (db : DB) (u : String) (a : Bool) :
    (update_away_state db u a).management_rooms = db.management_rooms := by
  unfold update_away_state
  split <;> rfl

lemma clear_messages_user_away (db : DB) (u : String) :
    (clear_messages db u).user_away = db.user_away := rfl

lemma is_away_clear_messages (db : DB) (u w : String) :
    is_away (clear_messages db u) w = is_away db w := rfl

/-- The upsert never changes the `user_id` of a row. -/
lemma upsert_key (u : String) (a : Bool) (r : String × Bool) :
    ((if r.1 == u then (r.1, a) else r) : String × Bool).1 = r.1 := by
  by_cases h : (r.1 == u) = true
  · rw [if_pos h]
  · rw [if_neg h]

lemma find?_key_unique {l : List (String × Bool)} {u : String} {b : Bool}
    (hm : (u, b) ∈ l) (hnd : (l.map Prod.fst).Nodup) :
    l.find? (fun r => r.1 == u) = some (u, b) := by
  induction l with
  | nil => cases hm
  | cons hd tl ih =>
    rw [List.map_cons, List.nodup_cons] at hnd
    rcases List.mem_cons.mp hm with heq | hm2
    · rw [← heq,
        List.find?_cons_of_pos (p := fun r : String × Bool => r.1 == u) _ (by simp)]
    · have hne : ¬((hd.1 == u) = true) := by
        intro hx
        apply hnd.1
        have : hd.1 = u := by simpa using hx
        rw [this]
        exact List.mem_map_of_mem Prod.fst hm2
      rw [List.find?_cons_of_neg (p := fun r : String × Bool => r.1 == u) _ hne]
      exact ih hm2 hnd.2

lemma filter_key_le_one {l : List (String × Bool)} {u : String}
    (hnd : (l.map Prod.fst).Nodup) :
    (l.filter (fun r => r.1 == u)).length ≤ 1 := by
  induction l with
  | nil => simp
  | cons hd tl ih =>
    rw [List.map_cons, List.nodup_cons] at hnd
    by_cases h : (hd.1 == u) = true
    · rw [List.filter_cons_of_pos (p := fun r : String × Bool => r.1 == u) h]
      have hnil : tl.filter (fun r => r.1 == u) = [] := by
        rw [List.filter_eq_nil_iff]
        intro x hx hpx
        apply hnd.1
        have hxu : x.1 = u := by simpa using hpx
        have hdu : hd.1 = u := by simpa using h
        rw [hdu, ← hxu]
        exact List.mem_map_of_mem Prod.fst hx
      rw [hnil]
      simp
    · rw [List.filter_cons_of_neg (p := fun r : String × Bool => r.1 == u) h]
      exact ih hnd.2

lemma update_away_state_user_away (db : DB) (u : String) (a : Bool) :
    (update_away_state db u a).user_away =
      if db.user_away.any (fun r => r.1 == u) then
        db.user_away.map (fun r => if r.1 == u then (r.1, a) else r)
      else db.user_away ++ [(u, a)] := by
  unfold update_away_state
  split <;> rfl

/-- The key scan is unchanged by the upsert's value rewrite. -/
lemma upsert_pred_comp (u : String) (a : Bool) :
    ((fun r : String × Bool => r.1 == u) ∘
      (fun r : String × Bool => if r.1 == u then (r.1, a) else r)) =
    (fun r : String × Bool => r.1 == u) := by
  funext r
  simp only [Function.comp_apply]
  rw [show (((if r.1 == u then (r.1, a) else r) : String × Bool).1 == u) =
    (r.1 == u) from by rw [upsert_key]]

lemma is_away_update_self (db : DB) (u : String) (a : Bool) :
    is_away (update_away_state db u a) u = a := by
  unfold is_away
  rw [update_away_state_user_away]
  by_cases h : (db.user_away.any fun r => r.1 == u) = true
  · rw [if_pos h]
    obtain ⟨r0, hr0mem, hr0p⟩ := List.any_eq_true.mp h
    have hsome : (db.user_away.find? (fun r => r.1 == u)).isSome := by
      rw [List.find?_isSome]
      exact ⟨r0, hr0mem, hr0p⟩
    obtain ⟨r1, hr1⟩ := Option.isSome_iff_exists.mp hsome
    have hu := List.find?_some hr1
    rw [List.find?_map, upsert_pred_comp, hr1]
    have hequ : r1.1 = u := by simpa using hu
    simp [hequ]
  · rw [if_neg h]
    have hfalse : (db.user_away.any fun r => r.1 == u) = false :=
      Bool.not_eq_true _ ▸ h
    have hnone : db.user_away.find? (fun r => r.1 == u) = none := by
      rw [List.find?_eq_none]
      intro x hx
      exact List.any_eq_false.mp hfalse x hx
    rw [List.find?_append, hnone]
    simp

/-- When no row for `u` exists, the upsert's map arm would change nothing. -/
lemma upsert_map_id {db : DB} {u : String} (a : Bool)
    (hfalse : (db.user_away.any fun r => r.1 == u) = false) :
    db.user_away.map (fun r => if r.1 == u then (r.1, a) else r) =
      db.user_away := by
  have hall := List.any_eq_false.mp hfalse
  calc db.user_away.map (fun r => if r.1 == u then (r.1, a) else r)
      = db.user_away.map id := by
        apply List.map_congr_left
        intro r hr
        have hne : ¬((r.1 == u) = true) := hall r hr
        rw [if_neg hne]
        rfl
    _ = db.user_away := List.map_id _

lemma update_away_state_idem (db : DB) (u : String) (a : Bool) :
    update_away_state (update_away_state db u a) u a = update_away_state db u a := by
  ext1
  · rw [update_away_state_management, update_away_state_management]
  · rw [update_away_state_messages, update_away_state_messages]
  · rw [update_away_state_user_away, update_away_state_user_away]
    by_cases h : (db.user_away.any fun r => r.1 == u) = true
    · rw [if_pos h]
      have hany : ((db.user_away.map fun r => if r.1 == u then (r.1, a) else r).any
          fun r => r.1 == u) = true := by
        rw [List.any_map, upsert_pred_comp]
        exact h
      rw [if_pos hany, List.map_map]
      apply List.map_congr_left
      intro r _
      by_cases hru : (r.1 == u) = true
      · simp only [Function.comp_apply, if_pos hru]
      · simp only [Function.comp_apply, if_neg hru]
    · rw [if_neg h]
      have hfalse : (db.user_away.any fun r => r.1 == u) = false :=
        Bool.not_eq_true _ ▸ h
      have hany : ((db.user_away ++ [(u, a)]).any fun r => r.1 == u) = true := by
        rw [List.any_eq_true]
        exact ⟨(u, a), by simp, by simp⟩
      rw [if_pos hany, List.map_append, upsert_map_id a hfalse]
      simp

/-! ### Claim theorems -/

/-- C9: `is_away` returns `false` whenever no away-state row exists for the
owner (absence behaves like a stored `false`), and otherwise returns the
stored boolean (under the table's primary-key invariant that no user id is
duplicated). -/
theorem is_away_semantics (db : DB) (u : String) :
    ((∀ r ∈ db.user_away, r.1 ≠ u) → is_away db u = false) ∧
    (∀ b, (u, b) ∈ db.user_away → (db.user_away.map Prod.fst).Nodup →
      is_away db u = b) := by
  constructor
  · intro h
    unfold is_away
    have hnone : db.user_away.find? (fun r => r.1 == u) = none := by
      rw [List.find?_eq_none]
      intro x hx
      simp [h x hx]
    rw [hnone]
    rfl
  · intro b hb hnd
    unfold is_away
    rw [find?_key_unique hb hnd]
    rfl

/-- Witness for C9: on the empty table the flag reads `false`; with a stored
`true` row it reads `true`. -/
theorem is_away_semantics_witness :
    is_away ⟨[], [], []⟩ "@bot:example.com" = false ∧
    is_away ⟨[], [], [("@bot:example.com", true)]⟩ "@bot:example.com" = true :=
  ⟨(is_away_semantics ⟨[], [], []⟩ "@bot:example.com").1 (by decide),
   (is_away_semantics ⟨[], [], [("@bot:example.com", true)]⟩
      "@bot:example.com").2 true (by decide) (by decide)⟩

/-- C7: `update_away_state` is an idempotent upsert.  Setting the flag to
`true` twice equals setting it once, the flag then reads `true`, exactly one
row for the owner exists afterwards, and the primary-key invariant (no
duplicated user ids) is preserved.  The operation is total in the model:
the upsert raises no error. -/
theorem update_away_state_idempotent (db : DB) (u : String)
    (hnd : (db.user_away.map Prod.fst).Nodup) :
    update_away_state (update_away_state db u true) u true
        = update_away_state db u true ∧
    is_away (update_away_state db u true) u = true ∧
    ((update_away_state db u true).user_away.filter
        (fun r => r.1 == u)).length = 1 ∧
    ((update_away_state db u true).user_away.map Prod.fst).Nodup := by
  refine ⟨update_away_state_idem db u true, is_away_update_self db u true, ?_, ?_⟩
  · rw [update_away_state_user_away]
    by_cases h : (db.user_away.any fun r => r.1 == u) = true
    · rw [if_pos h]
      rw [List.filter_map, upsert_pred_comp, List.length_map]
      obtain ⟨r0, hr0mem, hr0p⟩ := List.any_eq_true.mp h
      have hmem : r0 ∈ db.user_away.filter (fun r => r.1 == u) :=
        List.mem_filter.mpr ⟨hr0mem, hr0p⟩
      have hpos : 0 < (db.user_away.filter (fun r => r.1 == u)).length :=
        List.length_pos_of_mem hmem
      have hle : (db.user_away.filter (fun r => r.1 == u)).length ≤ 1 :=
        filter_key_le_one hnd
      omega
    · rw [if_neg h]
      have hfalse : (db.user_away.any fun r => r.1 == u) = false :=
        Bool.not_eq_true _ ▸ h
      have hall := List.any_eq_false.mp hfalse
      rw [List.filter_append]
      have hnil : db.user_away.filter (fun r => r.1 == u) = [] := by
        rw [List.filter_eq_nil_iff]
        exact hall
      rw [hnil]
      simp
  · rw [update_away_state_user_away]
    by_cases h : (db.user_away.any fun r => r.1 == u) = true
    · rw [if_pos h, List.map_map]
      have hkeys : (Prod.fst ∘ fun r : String × Bool =>
          if r.1 == u then (r.1, true) else r) = Prod.fst := by
        funext r
        simp only [Function.comp_apply]
        exact upsert_key u true r
      rw [hkeys]
      exact hnd
    · rw [if_neg h, List.map_append]
      have hfalse : (db.user_away.any fun r => r.1 == u) = false :=
        Bool.not_eq_true _ ▸ h
      have hall := List.any_eq_false.mp hfalse
      rw [List.nodup_append]
      refine ⟨hnd, by simp, ?_⟩
      intro x hx hx2
      have hxu : x = u := by simpa using hx2
      obtain ⟨r0, hr0mem, hr0eq⟩ := List.mem_map.mp hx
      apply hall r0 hr0mem
      rw [show r0.1 = x from hr0eq, hxu]
      simp

/-- Witness for C7 at a concrete empty store. -/
theorem update_away_state_idempotent_witness :
    update_away_state (update_away_state ⟨[], [], []⟩ "@bot:example.com" true)
        "@bot:example.com" true
      = update_away_state ⟨[], [], []⟩ "@bot:example.com" true ∧
    is_away (update_away_state ⟨[], [], []⟩ "@bot:example.com" true)
      "@bot:example.com" = true :=
  ⟨(update_away_state_idempotent ⟨[], [], []⟩ "@bot:example.com" (by decide)).1,
   (update_away_state_idempotent ⟨[], [], []⟩ "@bot:example.com" (by decide)).2.1⟩

/-- C10: in `autoreply_messages` the primary key is `room_id` alone, so a
marker insert for an occupied room fails — even when the existing row was
recorded under a different `user_id` — and a successful insert preserves the
at-most-one-marker-per-room invariant. -/
theorem store_message_room_primary_key (db : DB) (u e r : String) :
    (∀ m ∈ db.messages, m.room_id = r →
      store_message db u e r = Except.error ()) ∧
    (∀ db2, store_message db u e r = Except.ok db2 →
      (db.messages.map Message.room_id).Nodup →
      (db2.messages.map Message.room_id).Nodup) := by
  constructor
  · intro m hm hmr
    unfold store_message
    rw [if_pos]
    rw [List.any_eq_true]
    exact ⟨m, hm, by simp [hmr]⟩
  · intro db2 hok hnd
    unfold store_message at hok
    by_cases h : (db.messages.any fun m => m.room_id == r) = true
    · rw [if_pos h] at hok
      cases hok
    · rw [if_neg h] at hok
      have hfalse : (db.messages.any fun m => m.room_id == r) = false :=
        Bool.not_eq_true _ ▸ h
      have hall := List.any_eq_false.mp hfalse
      have hdb2 : db2 = { db with messages := db.messages ++ [⟨r, e, u⟩] } := by
        injection hok with h2
        exact h2.symm
      rw [hdb2]
      show ((db.messages ++ [Message.mk r e u]).map Message.room_id).Nodup
      rw [List.map_append, List.nodup_append]
      refine ⟨hnd, by simp, ?_⟩
      intro x hx hx2
      have hxu : x = r := by simpa using hx2
      obtain ⟨m0, hm0mem, hm0eq⟩ := List.mem_map.mp hx
      apply hall m0 hm0mem
      rw [show m0.room_id = x from hm0eq, hxu]
      simp

/-- Witness for C10: a room occupied by a marker of one owner rejects a
marker insert by a different owner; inserting into a fresh room succeeds and
keeps room ids unique. -/
theorem store_message_room_primary_key_witness :
    store_message ⟨[], [⟨"!room1:example.com", "$e1", "@alice:example.com"⟩], []⟩
        "@bob:example.com" "$e2" "!room1:example.com" = Except.error () :=
  (store_message_room_primary_key
      (DB.mk [] [Message.mk "!room1:example.com" "$e1" "@alice:example.com"] [])
      "@bob:example.com" "$e2" "!room1:example.com").1
    (Message.mk "!room1:example.com" "$e1" "@alice:example.com") (by decide) rfl

/-! ### Summary rendering -/

lemma string_foldl_from (l : List String) (a : String) :
    l.foldl (fun r s => r ++ s) a = a ++ l.foldl (fun r s => r ++ s) "" := by
  induction l generalizing a with
  | nil => simp
  | cons s t ih =>
    rw [List.foldl_cons, List.foldl_cons, ih (a ++ s), ih ("" ++ s),
      String.empty_append, String.append_assoc]

lemma string_join_cons (a : String) (l : List String) :
    String.join (a :: l) = a ++ String.join l := by
  show (a :: l).foldl (fun r s => r ++ s) "" = a ++ l.foldl (fun r s => r ++ s) ""
  rw [List.foldl_cons, String.empty_append]
  exact string_foldl_from l a

lemma foldl_entries (g : String × String → String) (c : String)
    (l : List (String × String)) (init : String) :
    l.foldl (fun s p => s ++ c ++ g p) init =
      init ++ String.join (l.map (fun p => c ++ g p)) := by
  induction l generalizing init with
  | nil => simp [String.join]
  | cons p t ih =>
    rw [List.foldl_cons, List.map_cons, string_join_cons, ih]
    simp [String.append_assoc]

/-- C5: the missed-message summary is a pure function of the marker list the
store returns: the fixed "nothing missed" sentence when that list is empty,
otherwise the header followed by one bullet per marker, in the store's
returned order, where each bullet is `generate_room_entry` (a matrix.to link
built from the marker's room id, then a matrix.to link built from its room id
and event id). -/
theorem generate_missed_messages_summary_spec (db : DB) (u : String) :
    generate_missed_messages_summary db u =
      if get_missed_messages db u = [] then
        "You haven't missed any message while you were away."
      else
        "While you were away, you have missed messages in the following DM(s):\n"
          ++ String.join ((get_missed_messages db u).map
            (fun p => "\n* " ++ generate_room_entry p.1 p.2)) := by
  by_cases h : get_missed_messages db u = []
  · rw [if_pos h]
    unfold generate_missed_messages_summary
    rw [h]
    rfl
  · rw [if_neg h]
    unfold generate_missed_messages_summary
    have hlen : ¬(((get_missed_messages db u).length == 0) = true) := by
      intro hc
      exact h (List.length_eq_zero.mp (by simpa using hc))
    rw [if_neg hlen]
    rw [foldl_entries (fun p => generate_room_entry p.1 p.2) "\n* "
      (get_missed_messages db u)]

/-! ### The auto-reply decision -/

lemma auto_reply_self (mxid message : String) (fetch : Except Unit AccountData)
    (db : DB) (evt : MessageEvent) (h : evt.sender = mxid) :
    auto_reply mxid message fetch db evt = ⟨db, [], false⟩ := by
  unfold auto_reply
  rw [if_pos (by simp [h])]

lemma auto_reply_not_away (mxid message : String) (fetch : Except Unit AccountData)
    (db : DB) (evt : MessageEvent) (h1 : evt.sender ≠ mxid)
    (h2 : is_away db mxid = false) :
    auto_reply mxid message fetch db evt = ⟨db, [], false⟩ := by
  unfold auto_reply
  rw [if_neg (by simp [h1]), if_pos (by simp [h2])]

lemma auto_reply_marked (mxid message : String) (fetch : Except Unit AccountData)
    (db : DB) (evt : MessageEvent) (h1 : evt.sender ≠ mxid)
    (h2 : is_away db mxid = true)
    (h3 : (get_message_id_in_room db mxid evt.room_id).isSome = true) :
    auto_reply mxid message fetch db evt = ⟨db, [], false⟩ := by
  unfold auto_reply
  rw [if_neg (by simp [h1]), if_neg (by simp [h2]), if_pos h3]

lemma auto_reply_not_direct (mxid message : String) (data : AccountData)
    (db : DB) (evt : MessageEvent) (h1 : evt.sender ≠ mxid)
    (h2 : is_away db mxid = true)
    (h3 : get_message_id_in_room db mxid evt.room_id = none)
    (hd : is_direct_in data evt.room_id = false) :
    auto_reply mxid message (Except.ok data) db evt = ⟨db, [], false⟩ := by
  unfold auto_reply
  rw [if_neg (by simp [h1]), if_neg (by simp [h2]), if_neg (by simp [h3])]
  simp [is_direct, hd]

lemma auto_reply_fetch_error (mxid message : String) (db : DB)
    (evt : MessageEvent) (h1 : evt.sender ≠ mxid) (h2 : is_away db mxid = true)
    (h3 : get_message_id_in_room db mxid evt.room_id = none) :
    auto_reply mxid message (Except.error ()) db evt = ⟨db, [], true⟩ := by
  unfold auto_reply
  rw [if_neg (by simp [h1]), if_neg (by simp [h2]), if_neg (by simp [h3])]
  rfl

/-- With no marker recorded for this user in the room, the single-owner
well-formedness invariant rules out any row for the room at all. -/
lemma no_room_row_of_none {db : DB} {mxid room : String}
    (hwf : ∀ m ∈ db.messages, m.user_id = mxid)
    (h3 : get_message_id_in_room db mxid room = none) :
    (db.messages.any fun m => m.room_id == room) = false := by
  have hfind : db.messages.find?
      (fun m => m.room_id == room && m.user_id == mxid) = none := by
    unfold get_message_id_in_room at h3
    exact Option.map_eq_none'.mp h3
  have hall := List.find?_eq_none.mp hfind
  rw [List.any_eq_false]
  intro m hm hp
  apply hall m hm
  rw [Bool.and_eq_true]
  constructor
  · exact hp
  · simp [hwf m hm]

lemma auto_reply_success (mxid message : String) (data : AccountData)
    (db : DB) (evt : MessageEvent) (h1 : evt.sender ≠ mxid)
    (h2 : is_away db mxid = true)
    (h3 : get_message_id_in_room db mxid evt.room_id = none)
    (hd : is_direct_in data evt.room_id = true)
    (hnr : (db.messages.any fun m => m.room_id == evt.room_id) = false) :
    auto_reply mxid message (Except.ok data) db evt =
      ⟨{ db with messages :=
          db.messages ++ [Message.mk evt.room_id evt.event_id mxid] },
        [Reply.mk evt.room_id evt.event_id message false], false⟩ := by
  unfold auto_reply
  rw [if_neg (by simp [h1]), if_neg (by simp [h2]), if_neg (by simp [h3])]
  have hstore : store_message db mxid evt.event_id evt.room_id =
      Except.ok { db with messages :=
        db.messages ++ [Message.mk evt.room_id evt.event_id mxid] } := by
    unfold store_message
    rw [if_neg (by simp [hnr])]
  simp [is_direct, hd, hstore]

/-- C1: for a message outside the management room (with a successful
account-data lookup, and the single-owner invariant on stored markers), the
handler sends the configured reply and stores the triggering message's
`(room_id, event_id)` marker exactly when all four criteria hold; when any
criterion fails it leaves the state unchanged, sends nothing, and raises
nothing. -/
theorem auto_reply_criteria (mxid mgmt message : String) (data : AccountData)
    (db : DB) (evt : MessageEvent) (hroom : evt.room_id ≠ mgmt)
    (hwf : ∀ m ∈ db.messages, m.user_id = mxid) :
    ((evt.sender ≠ mxid ∧ is_away db mxid = true ∧
        get_message_id_in_room db mxid evt.room_id = none ∧
        is_direct_in data evt.room_id = true) →
      handle_message mxid mgmt message (Except.ok data) db evt =
        ⟨{ db with messages :=
            db.messages ++ [Message.mk evt.room_id evt.event_id mxid] },
          [Reply.mk evt.room_id evt.event_id message false], false⟩) ∧
    (¬(evt.sender ≠ mxid ∧ is_away db mxid = true ∧
        get_message_id_in_room db mxid evt.room_id = none ∧
        is_direct_in data evt.room_id = true) →
      handle_message mxid mgmt message (Except.ok data) db evt =
        ⟨db, [], false⟩) := by
  have hdisp : handle_message mxid mgmt message (Except.ok data) db evt =
      auto_reply mxid message (Except.ok data) db evt := by
    unfold handle_message
    rw [if_neg (by simp [hroom])]
  constructor
  · rintro ⟨h1, h2, h3, h4⟩
    rw [hdisp]
    exact auto_reply_success mxid message data db evt h1 h2 h3 h4
      (no_room_row_of_none hwf h3)
  · intro hn
    rw [hdisp]
    by_cases h1 : evt.sender = mxid
    · exact auto_reply_self mxid message _ db evt h1
    · by_cases h2 : is_away db mxid = true
      · by_cases h3 : get_message_id_in_room db mxid evt.room_id = none
        · by_cases h4 : is_direct_in data evt.room_id = true
          · exact absurd ⟨h1, h2, h3, h4⟩ hn
          · exact auto_reply_not_direct mxid message data db evt h1 h2 h3
              (Bool.not_eq_true _ ▸ h4)
        · have hsome : (get_message_id_in_room db mxid evt.room_id).isSome
              = true := by
            cases hx : get_message_id_in_room db mxid evt.room_id
            · exact absurd hx h3
            · rfl
          exact auto_reply_marked mxid message _ db evt h1 h2 hsome
      · exact auto_reply_not_away mxid message _ db evt h1
          (Bool.not_eq_true _ ▸ h2)

/-- Witness for C1: a first message from another user in a direct room while
away gets the reply and the marker; the bot's own message is a no-op. -/
theorem auto_reply_criteria_witness :
    handle_message "@bot:example.com" "!mgmt:example.com" "I am away"
        (Except.ok [("@alice:example.com", ["!dm:example.com"])])
        (DB.mk [] [] [("@bot:example.com", true)])
        (MessageEvent.mk "@alice:example.com" "!dm:example.com" "$e1" "hello") =
      ⟨DB.mk [] [Message.mk "!dm:example.com" "$e1" "@bot:example.com"]
          [("@bot:example.com", true)],
        [Reply.mk "!dm:example.com" "$e1" "I am away" false], false⟩ :=
  (auto_reply_criteria "@bot:example.com" "!mgmt:example.com" "I am away"
      [("@alice:example.com", ["!dm:example.com"])]
      (DB.mk [] [] [("@bot:example.com", true)])
      (MessageEvent.mk "@alice:example.com" "!dm:example.com" "$e1" "hello")
      (by decide) (by decide)).1 ⟨by decide, by decide, by decide, by decide⟩

/-- C4 counterexample: with the first three criteria satisfied and the
account-data lookup failing, `_auto_reply` lets the failure escape to its
caller (the `errored` flag is set), contrary to the claim that no error
propagates. -/
theorem auto_reply_lookup_failure_cex :
    (auto_reply "@bot:example.com" "I am away" (Except.error ())
        (DB.mk [] [] [("@bot:example.com", true)])
        (MessageEvent.mk "@alice:example.com" "!dm:example.com" "$e1" "hi"))
      = HandlerResult.mk (DB.mk [] [] [("@bot:example.com", true)]) [] true := by
  decide

/-- C4 amended: when the account-data lookup fails, the handler sends no
reply and changes no state, but the error propagates to its caller exactly
when the three criteria checked before the lookup (non-self sender, away
flag, no existing marker) all hold; otherwise the short-circuit means the
lookup is never reached and the handler is a silent no-op. -/
theorem auto_reply_lookup_failure_amended (mxid message : String) (db : DB)
    (evt : MessageEvent) :
    (auto_reply mxid message (Except.error ()) db evt).db = db ∧
    (auto_reply mxid message (Except.error ()) db evt).replies = [] ∧
    ((auto_reply mxid message (Except.error ()) db evt).errored = true ↔
      (evt.sender ≠ mxid ∧ is_away db mxid = true ∧
        get_message_id_in_room db mxid evt.room_id = none)) := by
  by_cases h1 : evt.sender = mxid
  · rw [auto_reply_self mxid message _ db evt h1]
    simp [h1]
  · by_cases h2 : is_away db mxid = true
    · by_cases h3 : get_message_id_in_room db mxid evt.room_id = none
      · rw [auto_reply_fetch_error mxid message db evt h1 h2 h3]
        simp [h1, h2, h3]
      · have hsome : (get_message_id_in_room db mxid evt.room_id).isSome
            = true := by
          cases hx : get_message_id_in_room db mxid evt.room_id
          · exact absurd hx h3
          · rfl
        rw [auto_reply_marked mxid message _ db evt h1 h2 hsome]
        simp [h1, h2, h3]
    · rw [auto_reply_not_away mxid message _ db evt h1 (Bool.not_eq_true _ ▸ h2)]
      simp [h1, h2]

/-! ### Management-room command handling -/

lemma hmc_none (db : DB) (mxid : String) (evt : MessageEvent)
    (hc : strStartsWith evt.body "!clear" = false)
    (ha : strStartsWith evt.body "!away" = false)
    (hb : strStartsWith evt.body "!back" = false) :
    handle_management_command db mxid evt = ⟨db, [], false⟩ := by
  unfold handle_management_command
  simp [hc, ha, hb]

lemma hmc_clear (db : DB) (mxid : String) (evt : MessageEvent)
    (hc : strStartsWith evt.body "!clear" = true) :
    handle_management_command db mxid evt =
      ⟨clear_messages db mxid,
        [Reply.mk evt.room_id evt.event_id "Cleared messages" false], false⟩ := by
  have ha := clear_away_disjoint hc
  have hb := clear_back_disjoint hc
  unfold handle_management_command
  simp [hc, ha, hb]

lemma hmc_away (db : DB) (mxid : String) (evt : MessageEvent)
    (ha : strStartsWith evt.body "!away" = true) :
    handle_management_command db mxid evt =
      ⟨update_away_state db mxid true,
        [Reply.mk evt.room_id evt.event_id
          "Your status has been updated. Have a nice break!" false], false⟩ := by
  have hc := away_clear_disjoint ha
  have hb := away_back_disjoint ha
  unfold handle_management_command
  simp [hc, ha, hb]

lemma hmc_back (db : DB) (mxid : String) (evt : MessageEvent)
    (hb : strStartsWith evt.body "!back" = true) :
    handle_management_command db mxid evt =
      ⟨clear_messages (update_away_state db mxid false) mxid,
        [Reply.mk evt.room_id evt.event_id
          ("Your status has been updated. Welcome back!\n\n" ++
            generate_missed_messages_summary
              (update_away_state db mxid false) mxid) true], false⟩ := by
  have hc := back_clear_disjoint hb
  have ha := back_away_disjoint hb
  unfold handle_management_command
  simp [hc, ha, hb]

/-- The summary only reads the messages table, which the away-state upsert
does not touch. -/
lemma summary_update_away (db : DB) (u w : String) (a : Bool) :
    generate_missed_messages_summary (update_away_state db u a) w =
      generate_missed_messages_summary db w := by
  unfold generate_missed_messages_summary get_missed_messages
  rw [update_away_state_messages]

lemma get_missed_messages_clear (db : DB) (u : String) :
    get_missed_messages (clear_messages db u) u = [] := by
  show ((db.messages.filter (fun m => !(m.user_id == u))).filter
      (fun m => m.user_id == u)).map (fun m => (m.room_id, m.event_id)) = []
  rw [List.filter_filter]
  have hnil : db.messages.filter
      (fun m => (m.user_id == u) && !(m.user_id == u)) = [] := by
    rw [List.filter_eq_nil_iff]
    intro m hm
    simp
  rw [hnil, List.map_nil]

lemma get_message_id_clear (db : DB) (u r : String) :
    get_message_id_in_room (clear_messages db u) u r = none := by
  unfold get_message_id_in_room
  rw [Option.map_eq_none']
  rw [List.find?_eq_none]
  intro x hx
  have hx2 := (List.mem_filter.mp hx).2
  simp only [Bool.not_eq_eq_eq_not, Bool.not_true] at hx2
  simp [hx2]

/-- C3: a management-room message starting with `!back` turns the away flag
off, sends exactly one reply consisting of the confirmation followed by the
summary rendered from the markers present when the command arrived, then
deletes all of the owner's markers, so both the bulk marker query and every
per-room marker query come back empty. -/
theorem handle_back_command (db : DB) (mxid : String) (evt : MessageEvent)
    (hb : strStartsWith evt.body "!back" = true) :
    handle_management_command db mxid evt =
      ⟨clear_messages (update_away_state db mxid false) mxid,
        [Reply.mk evt.room_id evt.event_id
          ("Your status has been updated. Welcome back!\n\n" ++
            generate_missed_messages_summary db mxid) true], false⟩ ∧
    is_away (handle_management_command db mxid evt).db mxid = false ∧
    get_missed_messages (handle_management_command db mxid evt).db mxid = [] ∧
    (∀ r, get_message_id_in_room (handle_management_command db mxid evt).db
      mxid r = none) := by
  have h0 := hmc_back db mxid evt hb
  refine ⟨?_, ?_, ?_, ?_⟩
  · rw [h0, summary_update_away]
  · rw [h0]
    show is_away (clear_messages (update_away_state db mxid false) mxid) mxid
      = false
    rw [is_away_clear_messages]
    exact is_away_update_self db mxid false
  · rw [h0]
    exact get_missed_messages_clear (update_away_state db mxid false) mxid
  · intro r
    rw [h0]
    exact get_message_id_clear (update_away_state db mxid false) mxid r

/-- Witness for C3 at a concrete store holding one marker. -/
theorem handle_back_command_witness :
    get_missed_messages (handle_management_command
        (DB.mk [] [Message.mk "!dm:example.com" "$e1" "@bot:example.com"]
          [("@bot:example.com", true)])
        "@bot:example.com"
        (MessageEvent.mk "@owner:example.com" "!mgmt:example.com" "$e2"
          "!back")).db "@bot:example.com" = [] ∧
    is_away (handle_management_command
        (DB.mk [] [Message.mk "!dm:example.com" "$e1" "@bot:example.com"]
          [("@bot:example.com", true)])
        "@bot:example.com"
        (MessageEvent.mk "@owner:example.com" "!mgmt:example.com" "$e2"
          "!back")).db "@bot:example.com" = false :=
  ⟨(handle_back_command
      (DB.mk [] [Message.mk "!dm:example.com" "$e1" "@bot:example.com"]
        [("@bot:example.com", true)])
      "@bot:example.com"
      (MessageEvent.mk "@owner:example.com" "!mgmt:example.com" "$e2" "!back")
      (by decide)).2.2.1,
   (handle_back_command
      (DB.mk [] [Message.mk "!dm:example.com" "$e1" "@bot:example.com"]
        [("@bot:example.com", true)])
      "@bot:example.com"
      (MessageEvent.mk "@owner:example.com" "!mgmt:example.com" "$e2" "!back")
      (by decide)).2.1⟩

/-- C8: a management-room message starting with `!clear` deletes all of the
owner's markers and sends the single fixed confirmation reply, while leaving
the away flag and the management-room binding untouched. -/
theorem handle_clear_command (db : DB) (mxid : String) (evt : MessageEvent)
    (hc : strStartsWith evt.body "!clear" = true) :
    handle_management_command db mxid evt =
      ⟨clear_messages db mxid,
        [Reply.mk evt.room_id evt.event_id "Cleared messages" false], false⟩ ∧
    get_missed_messages (handle_management_command db mxid evt).db mxid = [] ∧
    is_away (handle_management_command db mxid evt).db mxid = is_away db mxid ∧
    (handle_management_command db mxid evt).db.management_rooms
      = db.management_rooms := by
  have h0 := hmc_clear db mxid evt hc
  refine ⟨h0, ?_, ?_, ?_⟩
  · rw [h0]
    exact get_missed_messages_clear db mxid
  · rw [h0]
    rfl
  · rw [h0]
    rfl

/-- Witness for C8: clearing with a marker stored while away empties the
markers and keeps the away flag `true`. -/
theorem handle_clear_command_witness :
    get_missed_messages (handle_management_command
        (DB.mk [] [Message.mk "!dm:example.com" "$e1" "@bot:example.com"]
          [("@bot:example.com", true)])
        "@bot:example.com"
        (MessageEvent.mk "@owner:example.com" "!mgmt:example.com" "$e2"
          "!clear")).db "@bot:example.com" = [] ∧
    is_away (handle_management_command
        (DB.mk [] [Message.mk "!dm:example.com" "$e1" "@bot:example.com"]
          [("@bot:example.com", true)])
        "@bot:example.com"
        (MessageEvent.mk "@owner:example.com" "!mgmt:example.com" "$e2"
          "!clear")).db "@bot:example.com" =
      is_away (DB.mk [] [Message.mk "!dm:example.com" "$e1" "@bot:example.com"]
        [("@bot:example.com", true)]) "@bot:example.com" :=
  ⟨(handle_clear_command
      (DB.mk [] [Message.mk "!dm:example.com" "$e1" "@bot:example.com"]
        [("@bot:example.com", true)])
      "@bot:example.com"
      (MessageEvent.mk "@owner:example.com" "!mgmt:example.com" "$e2" "!clear")
      (by decide)).2.1,
   (handle_clear_command
      (DB.mk [] [Message.mk "!dm:example.com" "$e1" "@bot:example.com"]
        [("@bot:example.com", true)])
      "@bot:example.com"
      (MessageEvent.mk "@owner:example.com" "!mgmt:example.com" "$e2" "!clear")
      (by decide)).2.2.1⟩

/-- C6: the three command checks fire independently and exactly on their own
command word; no body can start with two of the three words, so at most one
branch fires per message; a recognized command produces exactly one
confirmation reply; an unrecognized body is a silent no-op; command handling
never raises. -/
theorem handle_management_dispatch (db : DB) (mxid : String)
    (evt : MessageEvent) :
    ¬(strStartsWith evt.body "!clear" = true ∧
        strStartsWith evt.body "!away" = true) ∧
    ¬(strStartsWith evt.body "!clear" = true ∧
        strStartsWith evt.body "!back" = true) ∧
    ¬(strStartsWith evt.body "!away" = true ∧
        strStartsWith evt.body "!back" = true) ∧
    ((strStartsWith evt.body "!clear" = false ∧
        strStartsWith evt.body "!away" = false ∧
        strStartsWith evt.body "!back" = false) →
      handle_management_command db mxid evt = ⟨db, [], false⟩) ∧
    (handle_management_command db mxid evt).replies.length =
      ((if strStartsWith evt.body "!clear" then 1 else 0) +
        (if strStartsWith evt.body "!away" then 1 else 0) +
        (if strStartsWith evt.body "!back" then 1 else 0)) ∧
    (handle_management_command db mxid evt).errored = false := by
  refine ⟨?_, ?_, ?_, ?_, ?_, ?_⟩
  · rintro ⟨h1, h2⟩
    rw [clear_away_disjoint h1] at h2
    exact Bool.false_ne_true h2
  · rintro ⟨h1, h2⟩
    rw [clear_back_disjoint h1] at h2
    exact Bool.false_ne_true h2
  · rintro ⟨h1, h2⟩
    rw [away_back_disjoint h1] at h2
    exact Bool.false_ne_true h2
  · rintro ⟨hc, ha, hb⟩
    exact hmc_none db mxid evt hc ha hb
  · by_cases hc : strStartsWith evt.body "!clear" = true
    · have ha := clear_away_disjoint hc
      have hb := clear_back_disjoint hc
      rw [hmc_clear db mxid evt hc]
      simp [hc, ha, hb]
    · have hcf : strStartsWith evt.body "!clear" = false :=
        Bool.not_eq_true _ ▸ hc
      by_cases ha : strStartsWith evt.body "!away" = true
      · have hb := away_back_disjoint ha
        rw [hmc_away db mxid evt ha]
        simp [hcf, ha, hb]
      · have haf : strStartsWith evt.body "!away" = false :=
          Bool.not_eq_true _ ▸ ha
        by_cases hb : strStartsWith evt.body "!back" = true
        · rw [hmc_back db mxid evt hb]
          simp [hcf, haf, hb]
        · have hbf : strStartsWith evt.body "!back" = false :=
            Bool.not_eq_true _ ▸ hb
          rw [hmc_none db mxid evt hcf haf hbf]
          simp [hcf, haf, hbf]
  · by_cases hc : strStartsWith evt.body "!clear" = true
    · rw [hmc_clear db mxid evt hc]
    · have hcf : strStartsWith evt.body "!clear" = false :=
        Bool.not_eq_true _ ▸ hc
      by_cases ha : strStartsWith evt.body "!away" = true
      · rw [hmc_away db mxid evt ha]
      · have haf : strStartsWith evt.body "!away" = false :=
          Bool.not_eq_true _ ▸ ha
        by_cases hb : strStartsWith evt.body "!back" = true
        · rw [hmc_back db mxid evt hb]
        · have hbf : strStartsWith evt.body "!back" = false :=
            Bool.not_eq_true _ ▸ hb
          rw [hmc_none db mxid evt hcf haf hbf]

/-- Witness for C6: an unrecognized body in the management room changes
nothing and sends nothing. -/
theorem handle_management_dispatch_witness :
    handle_management_command (DB.mk [] [] []) "@bot:example.com"
        (MessageEvent.mk "@owner:example.com" "!mgmt:example.com" "$e1"
          "hello") =
      ⟨DB.mk [] [] [], [], false⟩ :=
  (handle_management_dispatch (DB.mk [] [] []) "@bot:example.com"
      (MessageEvent.mk "@owner:example.com" "!mgmt:example.com" "$e1"
        "hello")).2.2.2.1 ⟨by decide, by decide, by decide⟩

/-! ### Sequences of inbound messages while away -/

lemma get_message_id_after_append (db : DB) (mxid R e : String)
    (h3 : get_message_id_in_room db mxid R = none) :
    get_message_id_in_room
      { db with messages := db.messages ++ [Message.mk R e mxid] } mxid R
      = some e := by
  have hfind : db.messages.find?
      (fun m => m.room_id == R && m.user_id == mxid) = none := by
    unfold get_message_id_in_room at h3
    exact Option.map_eq_none'.mp h3
  show ((db.messages ++ [Message.mk R e mxid]).find?
    (fun m => m.room_id == R && m.user_id == mxid)).map
      (fun m => m.event_id) = some e
  rw [List.find?_append, hfind]
  simp

/-- Once a marker for the room is on file, every further message in that room
is ignored by `_auto_reply`, whatever its sender. -/
lemma auto_reply_run_noop (mxid message : String) (data : AccountData)
    (db : DB) (R x : String) (evts : List MessageEvent)
    (hroom : ∀ ev ∈ evts, ev.room_id = R)
    (hmark : get_message_id_in_room db mxid R = some x) :
    auto_reply_run mxid message data db evts = (db, []) := by
  induction evts with
  | nil => rfl
  | cons ev rest ih =>
    have hev : ev.room_id = R := hroom ev (List.mem_cons_self ev rest)
    have hnoop : auto_reply mxid message (Except.ok data) db ev
        = ⟨db, [], false⟩ := by
      by_cases h1 : ev.sender = mxid
      · exact auto_reply_self mxid message _ db ev h1
      · by_cases h2 : is_away db mxid = true
        · apply auto_reply_marked mxid message _ db ev h1 h2
          rw [hev, hmark]
          rfl
        · exact auto_reply_not_away mxid message _ db ev h1
            (Bool.not_eq_true _ ▸ h2)
    have ihr := ih (fun e he => hroom e (List.mem_cons_of_mem _ he))
    simp [auto_reply_run, hnoop, ihr]

/-- C2: for a non-empty sequence of messages in one direct room while the
owner is away (first message qualifying, all messages in the same room, no
command in between), exactly one marker is stored — carrying the first
message's event id — and exactly one reply is sent; later messages in the
room add nothing. -/
theorem auto_reply_run_first_marker (mxid message : String)
    (data : AccountData) (db : DB) (e0 : MessageEvent)
    (rest : List MessageEvent)
    (hwf : ∀ m ∈ db.messages, m.user_id = mxid)
    (haway : is_away db mxid = true)
    (hnomark : get_message_id_in_room db mxid e0.room_id = none)
    (hdirect : is_direct_in data e0.room_id = true)
    (hsender : e0.sender ≠ mxid)
    (hroom : ∀ ev ∈ rest, ev.room_id = e0.room_id) :
    auto_reply_run mxid message data db (e0 :: rest) =
      ({ db with messages :=
          db.messages ++ [Message.mk e0.room_id e0.event_id mxid] },
        [Reply.mk e0.room_id e0.event_id message false]) ∧
    get_message_id_in_room (auto_reply_run mxid message data db (e0 :: rest)).1
      mxid e0.room_id = some e0.event_id ∧
    ((auto_reply_run mxid message data db (e0 :: rest)).1.messages.filter
      (fun m => m.room_id == e0.room_id)).length = 1 ∧
    (auto_reply_run mxid message data db (e0 :: rest)).2.length = 1 := by
  have hsucc := auto_reply_success mxid message data db e0 hsender haway
    hnomark hdirect (no_room_row_of_none hwf hnomark)
  have hmark1 : get_message_id_in_room
      { db with messages :=
        db.messages ++ [Message.mk e0.room_id e0.event_id mxid] }
      mxid e0.room_id = some e0.event_id :=
    get_message_id_after_append db mxid e0.room_id e0.event_id hnomark
  have hrun : auto_reply_run mxid message data db (e0 :: rest) =
      ({ db with messages :=
          db.messages ++ [Message.mk e0.room_id e0.event_id mxid] },
        [Reply.mk e0.room_id e0.event_id message false]) := by
    have hnooprun := auto_reply_run_noop mxid message data
      { db with messages :=
        db.messages ++ [Message.mk e0.room_id e0.event_id mxid] }
      e0.room_id e0.event_id rest hroom hmark1
    simp [auto_reply_run, hsucc, hnooprun]
  refine ⟨hrun, ?_, ?_, ?_⟩
  · rw [hrun]
    exact hmark1
  · rw [hrun]
    show ((db.messages ++ [Message.mk e0.room_id e0.event_id mxid]).filter
      (fun m => m.room_id == e0.room_id)).length = 1
    rw [List.filter_append]
    have hnil : db.messages.filter (fun m => m.room_id == e0.room_id) = [] := by
      rw [List.filter_eq_nil_iff]
      exact List.any_eq_false.mp (no_room_row_of_none hwf hnomark)
    rw [hnil]
    simp
  · rw [hrun]
    rfl

/-- Witness for C2: two messages in the same direct room while away produce
one reply and one marker carrying the first event id. -/
theorem auto_reply_run_first_marker_witness :
    auto_reply_run "@bot:example.com" "I am away"
        [("@alice:example.com", ["!dm:example.com"])]
        (DB.mk [] [] [("@bot:example.com", true)])
        [MessageEvent.mk "@alice:example.com" "!dm:example.com" "$e1" "hi",
          MessageEvent.mk "@alice:example.com" "!dm:example.com" "$e2"
            "ping"] =
      (DB.mk [] [Message.mk "!dm:example.com" "$e1" "@bot:example.com"]
          [("@bot:example.com", true)],
        [Reply.mk "!dm:example.com" "$e1" "I am away" false]) :=
  (auto_reply_run_first_marker "@bot:example.com" "I am away"
      [("@alice:example.com", ["!dm:example.com"])]
      (DB.mk [] [] [("@bot:example.com", true)])
      (MessageEvent.mk "@alice:example.com" "!dm:example.com" "$e1" "hi")
      [MessageEvent.mk "@alice:example.com" "!dm:example.com" "$e2" "ping"]
      (by decide) (by decide) (by decide) (by decide) (by decide)
      (by decide)).1

end Autoreply
